import Mathlib

/-
Verification of the Gen-Imgs image-generation service (src/main.py).

The program is a single orchestration pipeline: validate the request,
submit a generation job to the provider, poll its status up to 10 times
with a fixed 10-second sleep before each status query, fetch the
resulting image bytes, and upload them to an object store.

We embed it shallowly: Python dicts become association lists of PyVal,
each outbound call is answered by an environment Env, and every function
additionally returns a Trace recording the outbound calls it made and
the sleeps it performed.  Python exceptions are modelled with Except:
requests.RequestException, IndexError (from indexing an empty list),
ValueError and TypeError are the ones this program can raise.
-/

namespace GenImgs

/-- A Python/JSON scalar value as it appears in request bodies:
None, a string, or an integer. -/
inductive PyVal where
  | pyNone
  | pyStr (s : String)
  | pyInt (n : Int)
deriving DecidableEq, Repr

/-- Python str() of a PyVal, as used by the f-string in generate_image
(str(None) is the four-letter string None). -/
def PyVal.toPyString : PyVal → String
  | PyVal.pyNone => "None"
  | PyVal.pyStr s => s
  | PyVal.pyInt n => toString n

/-- A JSON object / Python dict: an association list from keys to values. -/
abbrev Dict : Type := List (String × PyVal)

/-- Python d.get(k): the value at key k, if present (first occurrence). -/
def dictGet (d : Dict) (k : String) : Option PyVal :=
  (List.find? (fun kv => kv.1 == k) d).map (fun kv => kv.2)

/-- Whether the dict has the key, as in the Python expression (k in d). -/
def hasKey (d : Dict) (k : String) : Bool :=
  (List.find? (fun kv => kv.1 == k) d).isSome

/-- The exceptions this program can raise. -/
inductive PyExn where
  | requestException
  | indexError
  | valueError
  | typeError
deriving DecidableEq, Repr

/-- d.get(k, dflt) used as an int, as in min(data.get(width, 896), 900):
a missing key gives the default, an int gives itself, and any other
value makes min raise TypeError. -/
def getIntE (d : Dict) (k : String) (dflt : Int) : Except PyExn Int :=
  match dictGet d k with
  | none => Except.ok dflt
  | some (PyVal.pyInt n) => Except.ok n
  | some _ => Except.error PyExn.typeError

/-- Image bytes (image_response.content). -/
abbrev Bytes : Type := List Nat

/-- One generated-image descriptor from the poll response:
its nsfw flag (image_data.get(nsfw, False)) and its url
(image_data.get(url), where an absent key or an empty string are both
falsy in the source check). -/
structure ImageData where
  nsfw : Bool
  url : Option String
deriving DecidableEq, Repr

/-- The parsed body of one status query:
response.json().get(generations_by_pk, {}) with its status field and
its generated_images field.  generated_images is an Option so that we
distinguish an absent key (the source substitutes the default [{}])
from a present-but-empty list (indexing it raises IndexError). -/
structure PollPayload where
  status : Option String
  generated_images : Option (List ImageData)
deriving DecidableEq, Repr

/-- The dict returned by _poll_generation_status: the poll payload with
the image_bytes key attached.  image_bytes is an Option, mirroring
image_data.get(image_bytes) in upload_to_gcs. -/
structure GenerationResult where
  payload : PollPayload
  image_bytes : Option Bytes
deriving DecidableEq, Repr

/-- The outcome of one outbound call: either the transport raises
requests.RequestException (after its internal retries), or a value. -/
inductive CallResult (α : Type) where
  | transportError
  | ok (a : α)
deriving DecidableEq, Repr

/-- A datetime with seconds precision, the part of datetime.now() that
strftime formats. -/
structure DateTime where
  year : Nat
  month : Nat
  day : Nat
  hour : Nat
  minute : Nat
  second : Nat
deriving DecidableEq, Repr

/-- The environment answering the outbound calls of one request, plus the
nondeterministic inputs (clock, uuid) and configuration. -/
structure Env where
  submitResp : CallResult (Option String)
  pollResp : Nat → CallResult PollPayload
  fetchResp : String → CallResult Bytes
  uploadResp : CallResult String
  now : DateTime
  uuidHex : String
  folder : String

/-- The JSON payload of the submission call. -/
structure SubmitPayload where
  prompt : String
  negative_prompt : String
  height : Int
  width : Int
  num_images : Nat
  modelId : String
deriving DecidableEq, Repr

/-- One outbound call, as recorded in the trace. -/
inductive Call where
  | submit (p : SubmitPayload)
  | statusQuery (generationId : String)
  | fetchImage (url : String)
  | uploadObject (objectName : String) (contentType : String)
deriving DecidableEq, Repr

/-- The observable effects of a run: outbound calls in order, and the
durations (seconds) of the sleeps performed. -/
structure Trace where
  calls : List Call
  sleeps : List Nat
deriving DecidableEq, Repr

def Trace.empty : Trace := ⟨[], []⟩

def Trace.append (t1 t2 : Trace) : Trace :=
  ⟨t1.calls ++ t2.calls, t1.sleeps ++ t2.sleeps⟩

def Call.isSubmit : Call → Bool
  | Call.submit _ => true
  | _ => false

def Call.isStatusQuery : Call → Bool
  | Call.statusQuery _ => true
  | _ => false

def Call.isFetch : Call → Bool
  | Call.fetchImage _ => true
  | _ => false

def Call.isUpload : Call → Bool
  | Call.uploadObject _ _ => true
  | _ => false

/-- Number of calls in the trace matching the predicate. -/
def countCalls (p : Call → Bool) (t : Trace) : Nat :=
  (t.calls.filter p).length

/-- MAX_GENERATION_ATTEMPTS = 10. -/
def MAX_GENERATION_ATTEMPTS : Nat := 10

/-- GENERATION_WAIT_TIME = 10 seconds between status checks. -/
def GENERATION_WAIT_TIME : Nat := 10

/-- MODEL_ID (Deliberate 1.1). -/
def MODEL_ID : String := "458ecfff-f76c-402c-8b85-f09f6fb198de"

/-- The augmented prompt built by generate_image: the user prompt
formatted by an f-string, followed by the fixed directives. -/
def fullPrompt (prompt : PyVal) : String :=
  prompt.toPyString ++ ", " ++
    "ultra-photorealistic, cinematic lighting, " ++
    "high detail, natural textures, " ++
    "no distortions, no artifacts, no woman, no person, no people, no men, no man"

/-- The fixed negative prompt of the submission payload. -/
def NEGATIVE_PROMPT : String :=
  "blurry, distorted, unnatural anatomy, " ++
    "low resolution, artifacts, unrealistic, " ++
    "low quality, text, watermark, distorted " ++ ""

/-- The submission payload as built in generate_image. -/
def buildPayload (prompt : PyVal) (width height : Int) : SubmitPayload :=
  { prompt := fullPrompt prompt
    negative_prompt := NEGATIVE_PROMPT
    height := height
    width := width
    num_images := 1
    modelId := MODEL_ID }

/-- What one loop iteration of _poll_generation_status decides:
fall through to the next attempt, or leave the loop with a result or an
uncaught exception. -/
inductive StepResult where
  | nextAttempt
  | finished (r : Except PyExn (Option GenerationResult))
deriving Repr

/-- The COMPLETE branch of one poll attempt, after the first image
descriptor has been selected: the nsfw check, the url check, and the
image fetch.  A RequestException from the fetch is caught by the except
clause of the loop body, so it falls through to the next attempt. -/
def completeImage (env : Env) (gid : String) (result_data : PollPayload)
    (image_data : ImageData) : StepResult × List Call :=
  if image_data.nsfw then
    (StepResult.finished (Except.ok none), [Call.statusQuery gid])
  else
    match image_data.url with
    | none => (StepResult.finished (Except.ok none), [Call.statusQuery gid])
    | some u =>
      if u.isEmpty then
        (StepResult.finished (Except.ok none), [Call.statusQuery gid])
      else
        match env.fetchResp u with
        | CallResult.transportError =>
          (StepResult.nextAttempt, [Call.statusQuery gid, Call.fetchImage u])
        | CallResult.ok content =>
          (StepResult.finished (Except.ok (some ⟨result_data, some content⟩)),
            [Call.statusQuery gid, Call.fetchImage u])

/-- One iteration of the polling loop (attempt number i), without the
leading sleep: the status query, the COMPLETE test, the selection of
generated_images[0] (defaulting to [{}] when the key is absent, and
raising IndexError when the list is present but empty, an exception no
handler in this function catches). -/
def pollStep (env : Env) (gid : String) (i : Nat) : StepResult × List Call :=
  match env.pollResp i with
  | CallResult.transportError => (StepResult.nextAttempt, [Call.statusQuery gid])
  | CallResult.ok result_data =>
    if result_data.status = some "COMPLETE" then
      match result_data.generated_images with
      | some [] =>
        (StepResult.finished (Except.error PyExn.indexError), [Call.statusQuery gid])
      | some (image_data :: _) => completeImage env gid result_data image_data
      | none => completeImage env gid result_data ⟨false, none⟩
    else
      (StepResult.nextAttempt, [Call.statusQuery gid])

/-- The polling loop over a list of attempt numbers.  Each iteration
sleeps GENERATION_WAIT_TIME seconds and then runs pollStep; when the
attempts are exhausted the function returns None. -/
def pollLoop (env : Env) (gid : String) :
    List Nat → (Except PyExn (Option GenerationResult)) × Trace
  | [] => (Except.ok none, Trace.empty)
  | i :: rest =>
    match pollStep env gid i with
    | (StepResult.finished r, cs) => (r, ⟨cs, [GENERATION_WAIT_TIME]⟩)
    | (StepResult.nextAttempt, cs) =>
      let rt := pollLoop env gid rest
      (rt.1, ⟨cs ++ rt.2.calls, GENERATION_WAIT_TIME :: rt.2.sleeps⟩)

/-- _poll_generation_status: the loop runs for attempt in range(10). -/
def poll_generation_status (env : Env) (gid : String) :
    (Except PyExn (Option GenerationResult)) × Trace :=
  pollLoop env gid (List.range MAX_GENERATION_ATTEMPTS)

/-- generate_image: build the augmented payload, submit, extract
sdGenerationJob.generationId, and poll.  A RequestException anywhere in
the body is caught and turned into None; a missing or falsy generation
id returns None without polling. -/
def generate_image (env : Env) (prompt : PyVal) (width height : Int) :
    (Except PyExn (Option GenerationResult)) × Trace :=
  let payload := buildPayload prompt width height
  match env.submitResp with
  | CallResult.transportError => (Except.ok none, ⟨[Call.submit payload], []⟩)
  | CallResult.ok gidOpt =>
    match gidOpt with
    | none => (Except.ok none, ⟨[Call.submit payload], []⟩)
    | some gid =>
      if gid.isEmpty then (Except.ok none, ⟨[Call.submit payload], []⟩)
      else
        let rt := poll_generation_status env gid
        ((match rt.1 with
          | Except.error PyExn.requestException => Except.ok none
          | r => r),
          ⟨Call.submit payload :: rt.2.calls, rt.2.sleeps⟩)

/-- Zero-pad a number to two digits, as strftime does. -/
def pad2 (n : Nat) : String :=
  if n < 10 then "0" ++ toString n else toString n

/-- Zero-pad a year to four digits, as strftime %Y does. -/
def pad4 (n : Nat) : String :=
  if n < 10 then "000" ++ toString n
  else if n < 100 then "00" ++ toString n
  else if n < 1000 then "0" ++ toString n
  else toString n

/-- datetime.now().strftime of the pattern %Y%m%d_%H%M%S. -/
def strftimeTimestamp (t : DateTime) : String :=
  pad4 t.year ++ pad2 t.month ++ pad2 t.day ++ "_" ++
    pad2 t.hour ++ pad2 t.minute ++ pad2 t.second

/-- Python slicing s[:n] on a string. -/
def strTake (s : String) (n : Nat) : String := ⟨s.data.take n⟩

/-- A lowercase hexadecimal digit, the alphabet of uuid4().hex. -/
def isHexChar (c : Char) : Bool :=
  c.isDigit || (decide (97 ≤ c.toNat) && decide (c.toNat ≤ 102))

/-- The generated object filename: timestamp, underscore, the first 8
characters of uuid4().hex, and the fixed .jpg extension. -/
def imageId (env : Env) : String :=
  strftimeTimestamp env.now ++ "_" ++ strTake env.uuidHex 8 ++ ".jpg"

/-- upload_to_gcs: read image_bytes (a missing key or empty bytes raise
ValueError, caught by the blanket except which returns None), build the
filename, upload under the configured folder prefix with content type
image/jpeg, make it public, and return blob.public_url; any storage or
transport failure is caught and returns None. -/
def upload_to_gcs (env : Env) (image_data : GenerationResult) :
    Option String × Trace :=
  match image_data.image_bytes with
  | none => (none, Trace.empty)
  | some image_bytes =>
    if image_bytes.isEmpty then (none, Trace.empty)
    else
      let objectName := env.folder ++ imageId env
      match env.uploadResp with
      | CallResult.transportError =>
        (none, ⟨[Call.uploadObject objectName "image/jpeg"], []⟩)
      | CallResult.ok url =>
        (some url, ⟨[Call.uploadObject objectName "image/jpeg"], []⟩)

/-- The body of an HTTP response: an error object, or the success object
with success set to True, the echoed prompt and the image url. -/
inductive RespBody where
  | err (msg : String)
  | success (prompt : PyVal) (image_url : String)
deriving DecidableEq, Repr

structure HttpResponse where
  status : Nat
  body : RespBody
deriving DecidableEq, Repr

/-- The tail of the endpoint after validation and clamping: inspect the
generation outcome (an escaped exception is caught by the blanket except
and mapped to 500 Unexpected server error; a falsy result gives 500
Image generation failed), then run the upload and shape the response
(a falsy upload result gives 500 Image upload failed). -/
def endpointStage2 (env : Env) (prompt : PyVal)
    (g : (Except PyExn (Option GenerationResult)) × Trace) :
    HttpResponse × Trace :=
  match g with
  | (Except.error _, t1) =>
    (⟨500, RespBody.err "Unexpected server error"⟩, t1)
  | (Except.ok none, t1) =>
    (⟨500, RespBody.err "Image generation failed"⟩, t1)
  | (Except.ok (some generated_image), t1) =>
    match upload_to_gcs env generated_image with
    | (none, t2) =>
      (⟨500, RespBody.err "Image upload failed"⟩, Trace.append t1 t2)
    | (some image_url, t2) =>
      if image_url.isEmpty then
        (⟨500, RespBody.err "Image upload failed"⟩, Trace.append t1 t2)
      else
        (⟨200, RespBody.success prompt image_url⟩, Trace.append t1 t2)

/-- generate_image_endpoint: validate (a missing or falsy body, or a
body without the prompt key, gives 400), clamp width and height with
min (a non-int value makes min raise TypeError, caught by the blanket
except as 500 Unexpected server error), then run generation and upload
via endpointStage2. -/
def generate_image_endpoint (env : Env) (data : Option Dict) :
    HttpResponse × Trace :=
  match data with
  | none => (⟨400, RespBody.err "A prompt is required"⟩, Trace.empty)
  | some d =>
    if d.isEmpty then (⟨400, RespBody.err "A prompt is required"⟩, Trace.empty)
    else
      match dictGet d "prompt" with
      | none => (⟨400, RespBody.err "A prompt is required"⟩, Trace.empty)
      | some prompt =>
        match getIntE d "width" 896 with
        | Except.error _ => (⟨500, RespBody.err "Unexpected server error"⟩, Trace.empty)
        | Except.ok w0 =>
          match getIntE d "height" 1192 with
          | Except.error _ => (⟨500, RespBody.err "Unexpected server error"⟩, Trace.empty)
          | Except.ok h0 =>
            let width := min w0 900
            let height := min h0 1536
            endpointStage2 env prompt (generate_image env prompt width height)

/-- A status-query answer that is not a COMPLETE payload: either the
transport errors or the status field differs from COMPLETE. -/
def respNotComplete : CallResult PollPayload → Bool
  | CallResult.transportError => true
  | CallResult.ok p => decide (p.status ≠ some "COMPLETE")

/-! Concrete fixtures used to exercise the theorems on closed inputs. -/

/-- A poll payload whose status is still PENDING. -/
def payloadNotComplete : PollPayload := ⟨some "PENDING", none⟩

/-- A safe completed image descriptor with a retrievable url. -/
def goodImage : ImageData := ⟨false, some "https://img"⟩

/-- A COMPLETE payload carrying one safe image. -/
def payloadComplete : PollPayload := ⟨some "COMPLETE", some [goodImage]⟩

/-- A COMPLETE payload whose first image is flagged nsfw. -/
def payloadNsfw : PollPayload := ⟨some "COMPLETE", some [⟨true, some "https://img"⟩]⟩

/-- A COMPLETE payload with a present but empty generated_images list. -/
def payloadEmptyImages : PollPayload := ⟨some "COMPLETE", some []⟩

def baseTime : DateTime := ⟨2026, 1, 2, 3, 4, 5⟩

def baseHex : String := "0123456789abcdef0123456789abcdef"

/-- Environment whose poll never reaches COMPLETE. -/
def envNever : Env :=
  { submitResp := CallResult.ok (some "job1")
    pollResp := fun _ => CallResult.ok payloadNotComplete
    fetchResp := fun _ => CallResult.ok [1]
    uploadResp := CallResult.ok "https://store/x.jpg"
    now := baseTime
    uuidHex := baseHex
    folder := "imgs/" }

/-- Environment that completes on the first attempt with a safe image. -/
def envGood : Env := { envNever with pollResp := fun _ => CallResult.ok payloadComplete }

/-- Environment that completes with an nsfw-flagged image. -/
def envNsfw : Env := { envNever with pollResp := fun _ => CallResult.ok payloadNsfw }

/-- Environment whose COMPLETE payload has an empty generated_images list. -/
def envEmptyImgs : Env :=
  { envNever with pollResp := fun _ => CallResult.ok payloadEmptyImages }

/-- Environment whose submission response has no generation id. -/
def envNoJob : Env := { envNever with submitResp := CallResult.ok none }

/-- Environment where generation succeeds but the storage upload fails. -/
def envUploadFail : Env := { envGood with uploadResp := CallResult.transportError }

def dPrompt : Dict := [("prompt", PyVal.pyStr "cat")]

def dWide : Dict := [("prompt", PyVal.pyStr "cat"), ("width", PyVal.pyInt 5000)]

def dNoPrompt : Dict := [("width", PyVal.pyInt 5)]

def dNullPrompt : Dict := [("prompt", PyVal.pyNone)]

/-! Helper lemmas about the polling loop and the traces it produces. -/

/-- A not-COMPLETE status answer makes the loop body fall through to the
next attempt after its single status query. -/
theorem pollStep_notComplete (env : Env) (gid : String) (i : Nat)
    (h : respNotComplete (env.pollResp i) = true) :
    pollStep env gid i = (StepResult.nextAttempt, [Call.statusQuery gid]) := by
  unfold pollStep
  cases hpr : env.pollResp i with
  | transportError => rfl
  | ok p =>
    rw [hpr] at h
    unfold respNotComplete at h
    simp only [decide_eq_true_eq] at h
    simp [h]

/-- Over attempts that all answer not-COMPLETE, the loop exhausts and
returns None, with one status query and one 10-second sleep per attempt. -/
theorem pollLoop_notComplete (env : Env) (gid : String) (l : List Nat)
    (h : ∀ i ∈ l, respNotComplete (env.pollResp i) = true) :
    pollLoop env gid l =
      (Except.ok none,
        ⟨List.replicate l.length (Call.statusQuery gid),
          List.replicate l.length GENERATION_WAIT_TIME⟩) := by
  induction l with
  | nil => rfl
  | cons i rest ih =>
    have hi : respNotComplete (env.pollResp i) = true := h i (by simp)
    have hrest : ∀ j ∈ rest, respNotComplete (env.pollResp j) = true :=
      fun j hj => h j (by simp [hj])
    simp [pollLoop, pollStep_notComplete env gid i hi, ih hrest, List.replicate_succ]

/-- A prefix of not-COMPLETE attempts only prepends its status queries and
sleeps to whatever the rest of the loop does. -/
theorem pollLoop_append (env : Env) (gid : String) (l1 l2 : List Nat)
    (h : ∀ i ∈ l1, respNotComplete (env.pollResp i) = true) :
    pollLoop env gid (l1 ++ l2) =
      ((pollLoop env gid l2).1,
        ⟨List.replicate l1.length (Call.statusQuery gid) ++ (pollLoop env gid l2).2.calls,
          List.replicate l1.length GENERATION_WAIT_TIME ++ (pollLoop env gid l2).2.sleeps⟩) := by
  induction l1 with
  | nil => rfl
  | cons i rest ih =>
    have hi : respNotComplete (env.pollResp i) = true := h i (by simp)
    have hrest : ∀ j ∈ rest, respNotComplete (env.pollResp j) = true :=
      fun j hj => h j (by simp [hj])
    simp [pollLoop, pollStep_notComplete env gid i hi, ih hrest, List.replicate_succ]

/-- A loop iteration that leaves the loop determines the loop result. -/
theorem pollLoop_finished (env : Env) (gid : String) (i : Nat) (rest : List Nat)
    (r : Except PyExn (Option GenerationResult)) (cs : List Call)
    (h : pollStep env gid i = (StepResult.finished r, cs)) :
    pollLoop env gid (i :: rest) = (r, ⟨cs, [GENERATION_WAIT_TIME]⟩) := by
  simp [pollLoop, h]

/-- Splitting range n at k. -/
theorem range_split (k n : Nat) (h : k ≤ n) :
    List.range n = List.range k ++ List.range' k (n - k) := by
  rw [List.range_eq_range', List.range_eq_range']
  have h1 : n - k + k = n := by omega
  calc List.range' 0 n = List.range' 0 (n - k + k) := by rw [h1]
    _ = List.range' 0 k ++ List.range' (0 + k) (n - k) :=
        (List.range'_append_1 0 k (n - k)).symm
    _ = List.range' 0 k ++ List.range' k (n - k) := by simp

/-- When submission yields a usable generation id, generate_image is the
poll result (unless that is a RequestException) behind the submit call. -/
theorem generate_image_unfold (env : Env) (prompt : PyVal) (width height : Int)
    (gid : String)
    (hsub : env.submitResp = CallResult.ok (some gid))
    (hgid : gid.isEmpty = false)
    (hnr : (poll_generation_status env gid).1 ≠ Except.error PyExn.requestException) :
    generate_image env prompt width height =
      ((poll_generation_status env gid).1,
        ⟨Call.submit (buildPayload prompt width height) ::
            (poll_generation_status env gid).2.calls,
          (poll_generation_status env gid).2.sleeps⟩) := by
  unfold generate_image
  rw [hsub]
  simp only [hgid]
  cases hr : (poll_generation_status env gid).1 with
  | error e =>
    cases e with
    | requestException => exact absurd hr hnr
    | indexError => simp [hr]
    | valueError => simp [hr]
    | typeError => simp [hr]
  | ok v => simp [hr]

/-- A dict in which a lookup succeeds is not the empty (falsy) dict. -/
theorem dict_ne_empty (d : Dict) (k : String) (v : PyVal)
    (h : dictGet d k = some v) : d.isEmpty = false := by
  cases d with
  | nil => simp [dictGet] at h
  | cons a l => rfl

/-- A loop iteration that falls through prepends its calls and its sleep
to the rest of the loop. -/
theorem pollLoop_next (env : Env) (gid : String) (i : Nat) (rest : List Nat)
    (cs : List Call)
    (h : pollStep env gid i = (StepResult.nextAttempt, cs)) :
    pollLoop env gid (i :: rest) =
      ((pollLoop env gid rest).1,
        ⟨cs ++ (pollLoop env gid rest).2.calls,
          GENERATION_WAIT_TIME :: (pollLoop env gid rest).2.sleeps⟩) := by
  simp [pollLoop, h]

/-- One loop iteration only performs status queries and image fetches. -/
theorem pollStep_calls (env : Env) (gid : String) (i : Nat) :
    ∀ c ∈ (pollStep env gid i).2, c.isSubmit = false ∧ c.isUpload = false := by
  intro c hc
  unfold pollStep completeImage at hc
  repeat' split at hc
  all_goals simp_all [Call.isSubmit, Call.isUpload]
  all_goals (rcases hc with rfl | rfl <;> simp [Call.isSubmit, Call.isUpload])

/-- The polling loop only performs status queries and image fetches. -/
theorem pollLoop_calls (env : Env) (gid : String) (l : List Nat) :
    ∀ c ∈ (pollLoop env gid l).2.calls, c.isSubmit = false ∧ c.isUpload = false := by
  induction l with
  | nil => intro c hc; simp [pollLoop, Trace.empty] at hc
  | cons i rest ih =>
    intro c hc
    have hstep := pollStep_calls env gid i
    cases hs : pollStep env gid i with
    | mk sr cs =>
      rw [hs] at hstep
      cases sr with
      | finished r =>
        rw [pollLoop_finished env gid i rest r cs hs] at hc
        exact hstep c hc
      | nextAttempt =>
        rw [pollLoop_next env gid i rest cs hs] at hc
        simp only [List.mem_append] at hc
        rcases hc with hc | hc
        · exact hstep c hc
        · exact ih c hc

/-- upload_to_gcs only performs the storage upload call. -/
theorem upload_calls (env : Env) (gr : GenerationResult) :
    ∀ c ∈ (upload_to_gcs env gr).2.calls,
      c.isSubmit = false ∧ c.isStatusQuery = false ∧ c.isFetch = false := by
  intro c hc
  unfold upload_to_gcs at hc
  repeat' split at hc
  all_goals simp_all [Trace.empty]
  all_goals simp [hc, Call.isSubmit, Call.isStatusQuery, Call.isFetch]

/-- The calls of generate_image: the submission with the payload built
from its arguments, followed only by poll calls. -/
theorem generate_image_calls (env : Env) (prompt : PyVal) (width height : Int) :
    ∃ cs, (generate_image env prompt width height).2.calls =
        Call.submit (buildPayload prompt width height) :: cs ∧
      ∀ c ∈ cs, c.isSubmit = false ∧ c.isUpload = false := by
  unfold generate_image
  cases env.submitResp with
  | transportError => exact ⟨[], rfl, by simp⟩
  | ok gidOpt =>
    cases gidOpt with
    | none => exact ⟨[], rfl, by simp⟩
    | some gid =>
      by_cases hg : gid.isEmpty
      · simp only [hg, if_true]
        exact ⟨[], rfl, by simp⟩
      · simp only [hg, if_false]
        exact ⟨(poll_generation_status env gid).2.calls, rfl,
          pollLoop_calls env gid (List.range MAX_GENERATION_ATTEMPTS)⟩

/-- Any submit call recorded by generate_image carries exactly the
payload built from its arguments. -/
theorem generate_image_submitEq (env : Env) (prompt : PyVal) (width height : Int)
    (q : SubmitPayload)
    (hq : Call.submit q ∈ (generate_image env prompt width height).2.calls) :
    q = buildPayload prompt width height := by
  obtain ⟨cs, hcs, hrest⟩ := generate_image_calls env prompt width height
  rw [hcs] at hq
  rcases List.mem_cons.mp hq with h | h
  · simp only [Call.submit.injEq] at h
    exact h
  · have := (hrest _ h).1
    simp [Call.isSubmit] at this

/-- C1: when submission yields a job identifier but no status query ever
answers COMPLETE, the polling loop performs exactly 10 attempts, each
sleeping a constant 10 seconds before its single status query, yields no
result, and the endpoint returns 500 with the Image generation failed
error; in total exactly 10 status-check calls and 1 submission call are
made, and no fetch or upload calls. -/
theorem poll_exhaustion_returns_500 (env : Env) (d : Dict) (p : PyVal)
    (gid : String) (w0 h0 : Int)
    (hp : dictGet d "prompt" = some p)
    (hw : getIntE d "width" 896 = Except.ok w0)
    (hh : getIntE d "height" 1192 = Except.ok h0)
    (hsub : env.submitResp = CallResult.ok (some gid))
    (hgid : gid.isEmpty = false)
    (hnc : ∀ i ∈ List.range MAX_GENERATION_ATTEMPTS,
      respNotComplete (env.pollResp i) = true) :
    (generate_image_endpoint env (some d)).1 =
        ⟨500, RespBody.err "Image generation failed"⟩ ∧
      countCalls Call.isStatusQuery (generate_image_endpoint env (some d)).2 = 10 ∧
      countCalls Call.isSubmit (generate_image_endpoint env (some d)).2 = 1 ∧
      countCalls Call.isFetch (generate_image_endpoint env (some d)).2 = 0 ∧
      countCalls Call.isUpload (generate_image_endpoint env (some d)).2 = 0 ∧
      (generate_image_endpoint env (some d)).2.sleeps = List.replicate 10 10 := by
  have hne : d.isEmpty = false := dict_ne_empty d "prompt" p hp
  have hpoll : poll_generation_status env gid =
      (Except.ok none,
        ⟨List.replicate 10 (Call.statusQuery gid),
          List.replicate 10 GENERATION_WAIT_TIME⟩) := by
    unfold poll_generation_status
    rw [pollLoop_notComplete env gid (List.range MAX_GENERATION_ATTEMPTS) hnc]
    simp [MAX_GENERATION_ATTEMPTS]
  have hgen : generate_image env p (min w0 900) (min h0 1536) =
      (Except.ok none,
        ⟨Call.submit (buildPayload p (min w0 900) (min h0 1536)) ::
            List.replicate 10 (Call.statusQuery gid),
          List.replicate 10 GENERATION_WAIT_TIME⟩) := by
    unfold generate_image
    rw [hsub]
    simp [hgid, hpoll]
  have hend : generate_image_endpoint env (some d) =
      (⟨500, RespBody.err "Image generation failed"⟩,
        ⟨Call.submit (buildPayload p (min w0 900) (min h0 1536)) ::
            List.replicate 10 (Call.statusQuery gid),
          List.replicate 10 GENERATION_WAIT_TIME⟩) := by
    simp [generate_image_endpoint, endpointStage2, hne, hp, hw, hh, hgen]
  rw [hend]
  refine ⟨rfl, ?_, ?_, ?_, ?_, by simp [GENERATION_WAIT_TIME]⟩ <;>
    simp [countCalls, Call.isStatusQuery, Call.isSubmit, Call.isFetch,
      Call.isUpload, List.filter_replicate]

/-- C1 witness: the environment that never completes, on a concrete
request, exhibits the exhaustion behaviour. -/
theorem poll_exhaustion_returns_500_witness :
    (generate_image_endpoint envNever (some dPrompt)).1 =
        ⟨500, RespBody.err "Image generation failed"⟩ ∧
      countCalls Call.isStatusQuery (generate_image_endpoint envNever (some dPrompt)).2 = 10 ∧
      countCalls Call.isSubmit (generate_image_endpoint envNever (some dPrompt)).2 = 1 ∧
      countCalls Call.isFetch (generate_image_endpoint envNever (some dPrompt)).2 = 0 ∧
      countCalls Call.isUpload (generate_image_endpoint envNever (some dPrompt)).2 = 0 ∧
      (generate_image_endpoint envNever (some dPrompt)).2.sleeps = List.replicate 10 10 :=
  poll_exhaustion_returns_500 envNever dPrompt (PyVal.pyStr "cat") "job1" 896 1192
    (by decide) rfl rfl rfl (by decide) (by decide)

/-- A COMPLETE answer whose first image descriptor is flagged nsfw makes
the loop body leave the loop at once with no result, after its single
status query. -/
theorem pollStep_nsfw (env : Env) (gid : String) (k : Nat) (pay : PollPayload)
    (img : ImageData) (imgs : List ImageData)
    (hpr : env.pollResp k = CallResult.ok pay)
    (hst : pay.status = some "COMPLETE")
    (hgi : pay.generated_images = some (img :: imgs))
    (hn : img.nsfw = true) :
    pollStep env gid k =
      (StepResult.finished (Except.ok none), [Call.statusQuery gid]) := by
  unfold pollStep
  rw [hpr]
  simp [hst, hgi, completeImage, hn]

/-- C2: when a status query answers COMPLETE with the first image
descriptor flagged unsafe, the polling loop aborts immediately: it yields
no result after exactly k+1 status queries (k being the number of earlier
attempts), performs no fetch and no upload, and the endpoint returns 500
Image generation failed. -/
theorem nsfw_aborts_polling (env : Env) (d : Dict) (p : PyVal) (gid : String)
    (w0 h0 : Int) (k : Nat) (pay : PollPayload) (img : ImageData)
    (imgs : List ImageData)
    (hp : dictGet d "prompt" = some p)
    (hw : getIntE d "width" 896 = Except.ok w0)
    (hh : getIntE d "height" 1192 = Except.ok h0)
    (hsub : env.submitResp = CallResult.ok (some gid))
    (hgid : gid.isEmpty = false)
    (hk : k < 10)
    (hpre : ∀ i ∈ List.range k, respNotComplete (env.pollResp i) = true)
    (hpr : env.pollResp k = CallResult.ok pay)
    (hst : pay.status = some "COMPLETE")
    (hgi : pay.generated_images = some (img :: imgs))
    (hn : img.nsfw = true) :
    (poll_generation_status env gid).1 = Except.ok none ∧
      (generate_image_endpoint env (some d)).1 =
        ⟨500, RespBody.err "Image generation failed"⟩ ∧
      countCalls Call.isStatusQuery (generate_image_endpoint env (some d)).2 = k + 1 ∧
      countCalls Call.isSubmit (generate_image_endpoint env (some d)).2 = 1 ∧
      countCalls Call.isFetch (generate_image_endpoint env (some d)).2 = 0 ∧
      countCalls Call.isUpload (generate_image_endpoint env (some d)).2 = 0 ∧
      (generate_image_endpoint env (some d)).2.sleeps =
        List.replicate (k + 1) 10 := by
  have hne : d.isEmpty = false := dict_ne_empty d "prompt" p hp
  have hstep := pollStep_nsfw env gid k pay img imgs hpr hst hgi hn
  have hsplit : List.range 10 = List.range k ++ (k :: List.range' (k + 1) (9 - k)) := by
    rw [range_split k 10 (Nat.le_of_lt hk)]
    congr 1
    have h1 : 10 - k = (9 - k) + 1 := by omega
    rw [h1, List.range'_succ]
  have hpoll : poll_generation_status env gid =
      (Except.ok none,
        ⟨List.replicate k (Call.statusQuery gid) ++ [Call.statusQuery gid],
          List.replicate k GENERATION_WAIT_TIME ++ [GENERATION_WAIT_TIME]⟩) := by
    unfold poll_generation_status
    rw [show MAX_GENERATION_ATTEMPTS = 10 from rfl, hsplit,
      pollLoop_append env gid (List.range k) _ hpre,
      pollLoop_finished env gid k _ _ _ hstep]
    simp
  have hgen : generate_image env p (min w0 900) (min h0 1536) =
      (Except.ok none,
        ⟨Call.submit (buildPayload p (min w0 900) (min h0 1536)) ::
            (List.replicate k (Call.statusQuery gid) ++ [Call.statusQuery gid]),
          List.replicate k GENERATION_WAIT_TIME ++ [GENERATION_WAIT_TIME]⟩) := by
    unfold generate_image
    rw [hsub]
    simp [hgid, hpoll]
  have hend : generate_image_endpoint env (some d) =
      (⟨500, RespBody.err "Image generation failed"⟩,
        ⟨Call.submit (buildPayload p (min w0 900) (min h0 1536)) ::
            (List.replicate k (Call.statusQuery gid) ++ [Call.statusQuery gid]),
          List.replicate k GENERATION_WAIT_TIME ++ [GENERATION_WAIT_TIME]⟩) := by
    simp [generate_image_endpoint, endpointStage2, hne, hp, hw, hh, hgen]
  rw [hend]
  refine ⟨by rw [hpoll], rfl, ?_, ?_, ?_, ?_, ?_⟩ <;>
    simp [countCalls, Call.isStatusQuery, Call.isSubmit, Call.isFetch,
      Call.isUpload, List.filter_replicate, GENERATION_WAIT_TIME,
      List.replicate_succ']

/-- C2 witness: the nsfw environment aborts on the first attempt. -/
theorem nsfw_aborts_polling_witness :
    (poll_generation_status envNsfw "job1").1 = Except.ok none ∧
      (generate_image_endpoint envNsfw (some dPrompt)).1 =
        ⟨500, RespBody.err "Image generation failed"⟩ ∧
      countCalls Call.isStatusQuery (generate_image_endpoint envNsfw (some dPrompt)).2 = 0 + 1 ∧
      countCalls Call.isSubmit (generate_image_endpoint envNsfw (some dPrompt)).2 = 1 ∧
      countCalls Call.isFetch (generate_image_endpoint envNsfw (some dPrompt)).2 = 0 ∧
      countCalls Call.isUpload (generate_image_endpoint envNsfw (some dPrompt)).2 = 0 ∧
      (generate_image_endpoint envNsfw (some dPrompt)).2.sleeps =
        List.replicate (0 + 1) 10 :=
  nsfw_aborts_polling envNsfw dPrompt (PyVal.pyStr "cat") "job1" 896 1192 0
    payloadNsfw ⟨true, some "https://img"⟩ []
    (by decide) rfl rfl rfl (by decide) (by decide) (by decide) rfl rfl rfl rfl

/-- On a request that passes validation and whose width and height values
read as ints, the endpoint is stage 2 applied to the generation run with
clamped dimensions. -/
theorem endpoint_run (env : Env) (d : Dict) (p : PyVal) (w0 h0 : Int)
    (hp : dictGet d "prompt" = some p)
    (hw : getIntE d "width" 896 = Except.ok w0)
    (hh : getIntE d "height" 1192 = Except.ok h0) :
    generate_image_endpoint env (some d) =
      endpointStage2 env p (generate_image env p (min w0 900) (min h0 1536)) := by
  have hne : d.isEmpty = false := dict_ne_empty d "prompt" p hp
  simp [generate_image_endpoint, hne, hp, hw, hh]

/-- Stage 2 appends only upload calls to the generation trace. -/
theorem endpointStage2_calls (env : Env) (p : PyVal)
    (g : (Except PyExn (Option GenerationResult)) × Trace) :
    ∃ extra, (endpointStage2 env p g).2.calls = g.2.calls ++ extra ∧
      ∀ c ∈ extra, c.isSubmit = false ∧ c.isStatusQuery = false ∧
        c.isFetch = false := by
  cases g with
  | mk r t1 =>
    cases r with
    | error e => exact ⟨[], by simp [endpointStage2], by simp⟩
    | ok v =>
      cases v with
      | none => exact ⟨[], by simp [endpointStage2], by simp⟩
      | some gr =>
        have hup := upload_calls env gr
        cases hu : upload_to_gcs env gr with
        | mk u t2 =>
          rw [hu] at hup
          cases u with
          | none =>
            exact ⟨t2.calls, by simp [endpointStage2, hu, Trace.append], hup⟩
          | some url =>
            by_cases he : url.isEmpty
            · exact ⟨t2.calls, by simp [endpointStage2, hu, he, Trace.append], hup⟩
            · exact ⟨t2.calls, by simp [endpointStage2, hu, he, Trace.append], hup⟩

/-- Stage 2 never answers 400. -/
theorem endpointStage2_status (env : Env) (p : PyVal)
    (g : (Except PyExn (Option GenerationResult)) × Trace) :
    (endpointStage2 env p g).1.status ≠ 400 := by
  cases g with
  | mk r t1 =>
    cases r with
    | error e => simp [endpointStage2]
    | ok v =>
      cases v with
      | none => simp [endpointStage2]
      | some gr =>
        cases hu : upload_to_gcs env gr with
        | mk u t2 =>
          cases u with
          | none => simp [endpointStage2, hu]
          | some url =>
            by_cases he : url.isEmpty <;> simp [endpointStage2, hu, he]

/-- An absent key makes the dict lookup fail. -/
theorem hasKey_false_dictGet (d : Dict) (k : String)
    (h : hasKey d k = false) : dictGet d k = none := by
  unfold hasKey at h
  unfold dictGet
  cases hf : List.find? (fun kv => kv.1 == k) d with
  | none => rfl
  | some kv => rw [hf] at h; simp at h

/-- C3: the width forwarded to the provider is min(requested, 900) and
the height min(requested, 1536), with defaults 896 and 1192 when the keys
are omitted; values above the caps are capped, never rejected, so every
submitted payload has width at most 900 and height at most 1536. -/
theorem dimensions_clamped (env : Env) (d : Dict) (p : PyVal) (w0 h0 : Int)
    (q : SubmitPayload)
    (hp : dictGet d "prompt" = some p)
    (hw : getIntE d "width" 896 = Except.ok w0)
    (hh : getIntE d "height" 1192 = Except.ok h0)
    (hq : Call.submit q ∈ (generate_image_endpoint env (some d)).2.calls) :
    q.width = min w0 900 ∧ q.height = min h0 1536 ∧
      q.width ≤ 900 ∧ q.height ≤ 1536 ∧
      (hasKey d "width" = false → q.width = 896) ∧
      (hasKey d "height" = false → q.height = 1192) := by
  rw [endpoint_run env d p w0 h0 hp hw hh] at hq
  obtain ⟨extra, hcalls, hext⟩ :=
    endpointStage2_calls env p (generate_image env p (min w0 900) (min h0 1536))
  rw [hcalls] at hq
  rcases List.mem_append.mp hq with h | h
  · have hqe := generate_image_submitEq env p (min w0 900) (min h0 1536) q h
    subst hqe
    refine ⟨rfl, rfl, min_le_right _ _, min_le_right _ _, ?_, ?_⟩
    · intro hk
      have hg : dictGet d "width" = none := hasKey_false_dictGet d "width" hk
      rw [show getIntE d "width" 896 = Except.ok 896 by simp [getIntE, hg]] at hw
      have hw0 : (896 : Int) = w0 := by injection hw
      show min w0 900 = 896
      rw [← hw0]
      decide
    · intro hk
      have hg : dictGet d "height" = none := hasKey_false_dictGet d "height" hk
      rw [show getIntE d "height" 1192 = Except.ok 1192 by simp [getIntE, hg]] at hh
      have hh0 : (1192 : Int) = h0 := by injection hh
      show min h0 1536 = 1192
      rw [← hh0]
      decide
  · have := (hext _ h).1
    simp [Call.isSubmit] at this

/-- C3 witness: a request with width 5000 submits width 900 and the
default height 1192. -/
theorem dimensions_clamped_witness :
    (buildPayload (PyVal.pyStr "cat") (min 5000 900) (min 1192 1536)).width =
        min 5000 900 ∧
      (buildPayload (PyVal.pyStr "cat") (min 5000 900) (min 1192 1536)).height =
        min 1192 1536 ∧
      (buildPayload (PyVal.pyStr "cat") (min 5000 900) (min 1192 1536)).width ≤ 900 ∧
      (buildPayload (PyVal.pyStr "cat") (min 5000 900) (min 1192 1536)).height ≤ 1536 ∧
      (hasKey dWide "width" = false →
        (buildPayload (PyVal.pyStr "cat") (min 5000 900) (min 1192 1536)).width = 896) ∧
      (hasKey dWide "height" = false →
        (buildPayload (PyVal.pyStr "cat") (min 5000 900) (min 1192 1536)).height = 1192) :=
  dimensions_clamped envNever dWide (PyVal.pyStr "cat") 5000 1192
    (buildPayload (PyVal.pyStr "cat") (min 5000 900) (min 1192 1536))
    (by decide) rfl rfl (by decide)

/-- A loop iteration that leaves the loop with an actual result produced
it from a COMPLETE payload whose first image descriptor exists and is
safe, with the fetched bytes attached. -/
theorem pollStep_some (env : Env) (gid : String) (i : Nat)
    (gr : GenerationResult) (cs : List Call)
    (h : pollStep env gid i = (StepResult.finished (Except.ok (some gr)), cs)) :
    gr.payload.status = some "COMPLETE" ∧ gr.image_bytes.isSome = true ∧
      ∃ img imgs, gr.payload.generated_images = some (img :: imgs) ∧
        img.nsfw = false := by
  unfold pollStep completeImage at h
  repeat' split at h
  all_goals simp_all
  obtain ⟨h1, h2⟩ := h
  subst h1
  simp_all

/-- Any actual result of the polling loop satisfies pollStep_some. -/
theorem pollLoop_some (env : Env) (gid : String) (l : List Nat)
    (gr : GenerationResult) (t : Trace)
    (h : pollLoop env gid l = (Except.ok (some gr), t)) :
    gr.payload.status = some "COMPLETE" ∧ gr.image_bytes.isSome = true ∧
      ∃ img imgs, gr.payload.generated_images = some (img :: imgs) ∧
        img.nsfw = false := by
  induction l generalizing t with
  | nil => simp [pollLoop, Trace.empty] at h
  | cons i rest ih =>
    cases hs : pollStep env gid i with
    | mk sr cs =>
      cases sr with
      | finished r =>
        rw [pollLoop_finished env gid i rest r cs hs] at h
        have hr : r = Except.ok (some gr) := congrArg Prod.fst h
        rw [hr] at hs
        exact pollStep_some env gid i gr cs hs
      | nextAttempt =>
        rw [pollLoop_next env gid i rest cs hs] at h
        have hr : (pollLoop env gid rest).1 = Except.ok (some gr) :=
          congrArg Prod.fst h
        exact ih (pollLoop env gid rest).2
          (Prod.ext hr rfl)

/-- C4: every GenerationResult actually returned by the polling step has
its image bytes attached, and it has them if and only if its status is
COMPLETE and the nsfw flag of its first image descriptor is false. -/
theorem result_bytes_iff_safe_complete (env : Env) (gid : String)
    (gr : GenerationResult) (t : Trace)
    (h : poll_generation_status env gid = (Except.ok (some gr), t)) :
    gr.image_bytes.isSome = true ↔
      (gr.payload.status = some "COMPLETE" ∧
        ∃ img imgs, gr.payload.generated_images = some (img :: imgs) ∧
          img.nsfw = false) := by
  obtain ⟨hst, hby, himg⟩ :=
    pollLoop_some env gid (List.range MAX_GENERATION_ATTEMPTS) gr t h
  exact iff_of_true hby ⟨hst, himg⟩

/-- C4 witness: the successful environment returns a result with bytes
attached, COMPLETE status and a safe first image. -/
theorem result_bytes_iff_safe_complete_witness :
    (⟨payloadComplete, some [1]⟩ : GenerationResult).image_bytes.isSome = true ↔
      ((⟨payloadComplete, some [1]⟩ : GenerationResult).payload.status =
          some "COMPLETE" ∧
        ∃ img imgs,
          (⟨payloadComplete, some [1]⟩ :
              GenerationResult).payload.generated_images = some (img :: imgs) ∧
            img.nsfw = false) :=
  result_bytes_iff_safe_complete envGood "job1" ⟨payloadComplete, some [1]⟩
    ⟨[Call.statusQuery "job1", Call.fetchImage "https://img"],
      [GENERATION_WAIT_TIME]⟩ rfl

/-- C5: a request whose body is absent, falsy, or lacks the prompt key
gets 400 with the fixed validation message, and no outbound call and no
sleep happen. -/
theorem missing_prompt_400 (env : Env) (data : Option Dict)
    (h : data = none ∨ ∃ d, data = some d ∧
      (d.isEmpty = true ∨ dictGet d "prompt" = none)) :
    generate_image_endpoint env data =
      (⟨400, RespBody.err "A prompt is required"⟩, Trace.empty) ∧
      (generate_image_endpoint env data).2.calls = [] := by
  have hmain : generate_image_endpoint env data =
      (⟨400, RespBody.err "A prompt is required"⟩, Trace.empty) := by
    rcases h with rfl | ⟨d, rfl, hd⟩
    · rfl
    · rcases hd with hd | hd
      · simp [generate_image_endpoint, hd]
      · by_cases he : d.isEmpty
        · simp [generate_image_endpoint, he]
        · simp [generate_image_endpoint, he, hd]
  exact ⟨hmain, by rw [hmain]; rfl⟩

/-- C5 witness: a body with no prompt key gets the 400 and an empty
trace. -/
theorem missing_prompt_400_witness :
    generate_image_endpoint envNever (some dNoPrompt) =
      (⟨400, RespBody.err "A prompt is required"⟩, Trace.empty) ∧
      (generate_image_endpoint envNever (some dNoPrompt)).2.calls = [] :=
  missing_prompt_400 envNever (some dNoPrompt)
    (Or.inr ⟨dNoPrompt, rfl, Or.inr rfl⟩)

/-- A successful upload used the configured store answer, and its only
call uploads the timestamped .jpg object with content type image/jpeg. -/
theorem upload_some (env : Env) (gr : GenerationResult) (url : String)
    (t2 : Trace) (h : upload_to_gcs env gr = (some url, t2)) :
    env.uploadResp = CallResult.ok url ∧
      t2 = ⟨[Call.uploadObject (env.folder ++ imageId env) "image/jpeg"], []⟩ := by
  unfold upload_to_gcs at h
  repeat' split at h
  all_goals simp_all

/-- C6: a 200 response echoes the original (non-augmented) prompt and
carries exactly the public url answered by the object store; the trace
contains the upload call whose object name is the folder prefix followed
by the timestamped name with the 8-character hex suffix and the fixed
.jpg extension, with content type image/jpeg; and when uuid4().hex is a
hex string of length at least 8 the suffix is exactly 8 hex characters. -/
theorem success_response_shape (env : Env) (d : Dict) (p : PyVal)
    (w0 h0 : Int) (b : RespBody) (t : Trace)
    (hp : dictGet d "prompt" = some p)
    (hw : getIntE d "width" 896 = Except.ok w0)
    (hh : getIntE d "height" 1192 = Except.ok h0)
    (hr : generate_image_endpoint env (some d) = (⟨200, b⟩, t)) :
    (∃ url, env.uploadResp = CallResult.ok url ∧ b = RespBody.success p url ∧
        url.isEmpty = false) ∧
      Call.uploadObject (env.folder ++ imageId env) "image/jpeg" ∈ t.calls ∧
      imageId env =
        strftimeTimestamp env.now ++ "_" ++ strTake env.uuidHex 8 ++ ".jpg" ∧
      ((env.uuidHex.data.all isHexChar = true ∧ 8 ≤ env.uuidHex.data.length) →
        ((strTake env.uuidHex 8).data.length = 8 ∧
          (strTake env.uuidHex 8).data.all isHexChar = true)) := by
  rw [endpoint_run env d p w0 h0 hp hw hh] at hr
  have hhex : (env.uuidHex.data.all isHexChar = true ∧
      8 ≤ env.uuidHex.data.length) →
      ((strTake env.uuidHex 8).data.length = 8 ∧
        (strTake env.uuidHex 8).data.all isHexChar = true) := by
    rintro ⟨ha, hl⟩
    constructor
    · show (env.uuidHex.data.take 8).length = 8
      rw [List.length_take]
      omega
    · show (env.uuidHex.data.take 8).all isHexChar = true
      rw [List.all_eq_true] at ha ⊢
      exact fun c hc => ha c (List.take_subset 8 env.uuidHex.data hc)
  cases hgen : generate_image env p (min w0 900) (min h0 1536) with
  | mk r t1 =>
    rw [hgen] at hr
    cases r with
    | error e =>
      have hv : endpointStage2 env p (Except.error e, t1) =
          (⟨500, RespBody.err "Unexpected server error"⟩, t1) := by
        simp [endpointStage2]
      rw [hv] at hr
      simp at hr
    | ok v =>
      cases v with
      | none =>
        have hv : endpointStage2 env p (Except.ok none, t1) =
            (⟨500, RespBody.err "Image generation failed"⟩, t1) := by
          simp [endpointStage2]
        rw [hv] at hr
        simp at hr
      | some gr =>
        cases hu : upload_to_gcs env gr with
        | mk u t2 =>
          cases u with
          | none =>
            have hv : endpointStage2 env p (Except.ok (some gr), t1) =
                (⟨500, RespBody.err "Image upload failed"⟩, Trace.append t1 t2) := by
              simp [endpointStage2, hu]
            rw [hv] at hr
            simp at hr
          | some url =>
            by_cases he : url.isEmpty
            · have hv : endpointStage2 env p (Except.ok (some gr), t1) =
                  (⟨500, RespBody.err "Image upload failed"⟩, Trace.append t1 t2) := by
                simp [endpointStage2, hu, he]
              rw [hv] at hr
              simp at hr
            · have hv : endpointStage2 env p (Except.ok (some gr), t1) =
                  (⟨200, RespBody.success p url⟩, Trace.append t1 t2) := by
                simp [endpointStage2, hu, he]
              rw [hv] at hr
              have h1 : RespBody.success p url = b :=
                congrArg (fun x => x.1.body) hr
              have h2 : Trace.append t1 t2 = t := congrArg Prod.snd hr
              obtain ⟨hupr, ht2⟩ := upload_some env gr url t2 hu
              refine ⟨⟨url, hupr, h1.symm, by simpa using he⟩, ?_, rfl, hhex⟩
              rw [← h2, ht2]
              simp [Trace.append]

/-- C6 witness: the fully successful environment yields the 200 body
echoing the original prompt and the store url, and its trace uploads the
timestamped object with content type image/jpeg. -/
theorem success_response_shape_witness :
    (∃ url, envGood.uploadResp = CallResult.ok url ∧
        RespBody.success (PyVal.pyStr "cat") "https://store/x.jpg" =
          RespBody.success (PyVal.pyStr "cat") url ∧
        url.isEmpty = false) ∧
      Call.uploadObject (envGood.folder ++ imageId envGood) "image/jpeg" ∈
        (⟨[Call.submit (buildPayload (PyVal.pyStr "cat") 896 1192),
            Call.statusQuery "job1", Call.fetchImage "https://img",
            Call.uploadObject "imgs/20260102_030405_01234567.jpg" "image/jpeg"],
          [10]⟩ : Trace).calls ∧
      imageId envGood =
        strftimeTimestamp envGood.now ++ "_" ++ strTake envGood.uuidHex 8 ++ ".jpg" ∧
      ((envGood.uuidHex.data.all isHexChar = true ∧
          8 ≤ envGood.uuidHex.data.length) →
        ((strTake envGood.uuidHex 8).data.length = 8 ∧
          (strTake envGood.uuidHex 8).data.all isHexChar = true)) :=
  success_response_shape envGood dPrompt (PyVal.pyStr "cat") 896 1192
    (RespBody.success (PyVal.pyStr "cat") "https://store/x.jpg")
    ⟨[Call.submit (buildPayload (PyVal.pyStr "cat") 896 1192),
        Call.statusQuery "job1", Call.fetchImage "https://img",
        Call.uploadObject "imgs/20260102_030405_01234567.jpg" "image/jpeg"],
      [10]⟩
    (by decide) rfl rfl (by decide)

/-- C7: any failure of the re-publication step — missing image bytes,
empty (falsy) bytes, or a storage transport error — makes upload_to_gcs
return None instead of propagating the exception, and the endpoint maps
that None to 500 Image upload failed. -/
theorem upload_failure_maps_to_500 (env : Env) (d : Dict) (p : PyVal)
    (w0 h0 : Int) (gr : GenerationResult) (t1 : Trace)
    (hp : dictGet d "prompt" = some p)
    (hw : getIntE d "width" 896 = Except.ok w0)
    (hh : getIntE d "height" 1192 = Except.ok h0)
    (hgen : generate_image env p (min w0 900) (min h0 1536) =
      (Except.ok (some gr), t1))
    (hfail : gr.image_bytes = none ∨ gr.image_bytes = some [] ∨
      env.uploadResp = CallResult.transportError) :
    (upload_to_gcs env gr).1 = none ∧
      (generate_image_endpoint env (some d)).1 =
        ⟨500, RespBody.err "Image upload failed"⟩ := by
  have hup : (upload_to_gcs env gr).1 = none := by
    rcases hfail with h | h | h
    · simp [upload_to_gcs, h]
    · simp [upload_to_gcs, h]
    · unfold upload_to_gcs
      cases hb : gr.image_bytes with
      | none => rfl
      | some bs =>
        by_cases hbe : bs.isEmpty <;> simp [hbe, h]
  refine ⟨hup, ?_⟩
  rw [endpoint_run env d p w0 h0 hp hw hh, hgen]
  cases hu2 : upload_to_gcs env gr with
  | mk u t2 =>
    rw [hu2] at hup
    simp only at hup
    subst hup
    simp [endpointStage2, hu2]

/-- C7 witness: with the storage transport failing, the concrete
successful generation maps to 500 Image upload failed. -/
theorem upload_failure_maps_to_500_witness :
    (upload_to_gcs envUploadFail ⟨payloadComplete, some [1]⟩).1 = none ∧
      (generate_image_endpoint envUploadFail (some dPrompt)).1 =
        ⟨500, RespBody.err "Image upload failed"⟩ :=
  upload_failure_maps_to_500 envUploadFail dPrompt (PyVal.pyStr "cat") 896 1192
    ⟨payloadComplete, some [1]⟩
    ⟨[Call.submit (buildPayload (PyVal.pyStr "cat") 896 1192),
        Call.statusQuery "job1", Call.fetchImage "https://img"], [10]⟩
    (by decide) rfl rfl rfl (Or.inr (Or.inr rfl))

/-- C8: a submission whose transport errors, or whose response lacks a
usable job identifier, makes generate_image return None (no exception)
after the single submission call, with no polling at all. -/
theorem submission_failure_returns_none (env : Env) (prompt : PyVal)
    (width height : Int)
    (hfail : env.submitResp = CallResult.transportError ∨
      env.submitResp = CallResult.ok none ∨
      ∃ g, env.submitResp = CallResult.ok (some g) ∧ g.isEmpty = true) :
    generate_image env prompt width height =
      (Except.ok none,
        ⟨[Call.submit (buildPayload prompt width height)], []⟩) ∧
      countCalls Call.isStatusQuery (generate_image env prompt width height).2 =
        0 := by
  have hmain : generate_image env prompt width height =
      (Except.ok none,
        ⟨[Call.submit (buildPayload prompt width height)], []⟩) := by
    rcases hfail with h | h | ⟨g, h, hg⟩
    · unfold generate_image
      rw [h]
    · unfold generate_image
      rw [h]
    · unfold generate_image
      rw [h]
      simp [hg]
  exact ⟨hmain, by rw [hmain]; simp [countCalls, Call.isStatusQuery]⟩

/-- C8 witness: a submission response without a generation id returns
None with only the submission call in the trace. -/
theorem submission_failure_returns_none_witness :
    generate_image envNoJob (PyVal.pyStr "cat") 896 1192 =
      (Except.ok none,
        ⟨[Call.submit (buildPayload (PyVal.pyStr "cat") 896 1192)], []⟩) ∧
      countCalls Call.isStatusQuery
        (generate_image envNoJob (PyVal.pyStr "cat") 896 1192).2 = 0 :=
  submission_failure_returns_none envNoJob (PyVal.pyStr "cat") 896 1192
    (Or.inr (Or.inl rfl))

/-- C9: a COMPLETE poll answer whose generated_images field is present
but an empty list raises IndexError when index 0 is taken; neither the
loop handler nor the generate_image handler catches it (both catch only
RequestException), so the endpoint answers 500 Unexpected server error
instead of Image generation failed. -/
theorem empty_images_unexpected_error (env : Env) (d : Dict) (p : PyVal)
    (w0 h0 : Int) (gid : String)
    (hp : dictGet d "prompt" = some p)
    (hw : getIntE d "width" 896 = Except.ok w0)
    (hh : getIntE d "height" 1192 = Except.ok h0)
    (hsub : env.submitResp = CallResult.ok (some gid))
    (hgid : gid.isEmpty = false)
    (hpr : env.pollResp 0 = CallResult.ok ⟨some "COMPLETE", some []⟩) :
    (generate_image env p (min w0 900) (min h0 1536)).1 =
        Except.error PyExn.indexError ∧
      (generate_image_endpoint env (some d)).1 =
        ⟨500, RespBody.err "Unexpected server error"⟩ := by
  have hstep : pollStep env gid 0 =
      (StepResult.finished (Except.error PyExn.indexError),
        [Call.statusQuery gid]) := by
    unfold pollStep
    rw [hpr]
    simp
  have hpoll : poll_generation_status env gid =
      (Except.error PyExn.indexError,
        ⟨[Call.statusQuery gid], [GENERATION_WAIT_TIME]⟩) := by
    unfold poll_generation_status
    rw [show List.range MAX_GENERATION_ATTEMPTS = 0 :: List.range' 1 9 from by decide]
    exact pollLoop_finished env gid 0 _ _ _ hstep
  have hgen : generate_image env p (min w0 900) (min h0 1536) =
      (Except.error PyExn.indexError,
        ⟨Call.submit (buildPayload p (min w0 900) (min h0 1536)) ::
            [Call.statusQuery gid],
          [GENERATION_WAIT_TIME]⟩) := by
    unfold generate_image
    rw [hsub]
    simp [hgid, hpoll]
  refine ⟨by rw [hgen], ?_⟩
  rw [endpoint_run env d p w0 h0 hp hw hh, hgen]
  simp [endpointStage2]

/-- C9 witness: the environment answering COMPLETE with an empty
generated_images list surfaces 500 Unexpected server error. -/
theorem empty_images_unexpected_error_witness :
    (generate_image envEmptyImgs (PyVal.pyStr "cat") (min 896 900)
          (min 1192 1536)).1 = Except.error PyExn.indexError ∧
      (generate_image_endpoint envEmptyImgs (some dPrompt)).1 =
        ⟨500, RespBody.err "Unexpected server error"⟩ :=
  empty_images_unexpected_error envEmptyImgs dPrompt (PyVal.pyStr "cat")
    896 1192 "job1" (by decide) rfl rfl rfl (by decide) rfl

/-- C10: a body whose prompt key holds null or the empty string passes
validation — the endpoint does not answer 400 — and the value is pushed
through prompt augmentation and submitted to the provider. -/
theorem null_prompt_passes_validation (env : Env) (d : Dict) (v : PyVal)
    (w0 h0 : Int)
    (hp : dictGet d "prompt" = some v)
    (_hv : v = PyVal.pyNone ∨ v = PyVal.pyStr "")
    (hw : getIntE d "width" 896 = Except.ok w0)
    (hh : getIntE d "height" 1192 = Except.ok h0) :
    (generate_image_endpoint env (some d)).1.status ≠ 400 ∧
      ∃ q, Call.submit q ∈ (generate_image_endpoint env (some d)).2.calls ∧
        q.prompt = fullPrompt v := by
  rw [endpoint_run env d v w0 h0 hp hw hh]
  refine ⟨endpointStage2_status env v _, ?_⟩
  obtain ⟨extra, hcalls, hext⟩ := endpointStage2_calls env v
    (generate_image env v (min w0 900) (min h0 1536))
  obtain ⟨cs, hcs, hcsrest⟩ := generate_image_calls env v (min w0 900) (min h0 1536)
  refine ⟨buildPayload v (min w0 900) (min h0 1536), ?_, rfl⟩
  rw [hcalls, hcs]
  simp

/-- C10 witness: a null prompt is accepted and submitted as the string
None followed by the fixed directives. -/
theorem null_prompt_passes_validation_witness :
    (generate_image_endpoint envNoJob (some dNullPrompt)).1.status ≠ 400 ∧
      ∃ q, Call.submit q ∈
          (generate_image_endpoint envNoJob (some dNullPrompt)).2.calls ∧
        q.prompt = fullPrompt PyVal.pyNone :=
  null_prompt_passes_validation envNoJob dNullPrompt PyVal.pyNone 896 1192
    (by decide) (Or.inl rfl) rfl rfl

end GenImgs
